import Mathlib

/-!
Verification of the dashboard clients of this repository:
  * `AppJS`  embeds `src/bot_6/static/js/app.js` (Vue component);
  * `DashJS` embeds `src/unnamed/part_000` (plain-DOM dashboard script).

Each client method is embedded as a pure function from its view state and a
`Server` (the responses the REST backend would give to each endpoint, with
`none` meaning the `fetch` rejects or the body fails to parse as JSON — the
two cases a `try`/`catch` around `await fetch`/`await response.json()`
cannot distinguish) to the new state together with the list of observable
effects: HTTP requests issued, user-visible notifications, console logs.
-/

/-- One observable effect of a dashboard client: an HTTP request, a
user-visible notification (`showError` / `showSuccess` in app.js,
`showNotification` in the plain-DOM script, with its `type` string), or a
console log. -/
inductive Ev where
  | get (url : String)
  | post (url : String)
  | notify (kind msg : String)
  | log (msg : String)
deriving DecidableEq, Repr

def isErrorNotify : Ev → Bool
  | Ev.notify k _ => k == "error"
  | _ => false

def isGetTo (url : String) : Ev → Bool
  | Ev.get u => u == url
  | _ => false

def isAnyGet : Ev → Bool
  | Ev.get _ => true
  | _ => false

/-- Number of error notifications in an effect list. -/
def countErrorNotifies (evs : List Ev) : Nat := evs.countP isErrorNotify

/-- Number of GET requests to a given endpoint in an effect list. -/
def countGets (url : String) (evs : List Ev) : Nat := evs.countP (isGetTo url)

/-- Number of `setInterval` firings of period `intervalMs` within a window of
`windowMs` milliseconds: the callback fires at `intervalMs, 2*intervalMs, …`. -/
def setIntervalTicks (intervalMs windowMs : Nat) : Nat := windowMs / intervalMs

/-- An opaque JSON value: a slice the client stores and renders without ever
inspecting its fields, so its internal shape is irrelevant to the model. -/
structure JsonVal where
  raw : String
deriving DecidableEq, Repr

/-- A `{status, message}`-shaped POST response body. -/
structure CloseResult where
  status : String
  message : String
deriving DecidableEq, Repr

namespace AppJS

/-- An entry of the `exchanges` array in the Vue component's data. -/
structure Exchange where
  id : String
  name : String
  apiKey : String
  secretKey : String
  enabled : Bool
  status : String
deriving DecidableEq, Repr

/-- A strategy row; app.js reads `id` and `status` (and `name`/`type` only for
filtering, which no modelled method uses). -/
structure Strategy where
  id : String
  name : String
  status : String
deriving DecidableEq, Repr

/-- A position row; app.js reads only `position.id` (to build the close URL);
the remaining attributes are rendered opaquely. -/
structure Position where
  id : String
  rest : JsonVal
deriving DecidableEq, Repr

/-- The in-memory view state of the Vue component (the slices its data object
holds that the modelled methods read or write). -/
structure AppState where
  currentPage : String
  accountStats : JsonVal
  strategies : List Strategy
  positions : List Position
  positionStats : JsonVal
  riskMetrics : JsonVal
  riskAlerts : JsonVal
  exchanges : List Exchange
  notificationSettings : JsonVal
  systemSettings : JsonVal
deriving DecidableEq, Repr

/-- Body of a successful `GET /api/positions` response. -/
structure PositionsData where
  positions : List Position
  stats : JsonVal
deriving DecidableEq, Repr

/-- Body of a successful `GET /api/dashboard` response (only `accountStats`
is read before the component crashes into its catch; see `loadDashboardData`). -/
structure DashboardData where
  accountStats : JsonVal
deriving DecidableEq, Repr

/-- Body of a successful `GET /api/risk/metrics` response. -/
structure RiskData where
  metrics : JsonVal
  alerts : JsonVal
deriving DecidableEq, Repr

/-- Body of a successful `GET /api/settings` response. -/
structure SettingsData where
  exchanges : List Exchange
  notification : JsonVal
  system : JsonVal
deriving DecidableEq, Repr

/-- Body of a successful `POST /api/exchanges/{id}/test` response. -/
structure TestResult where
  status : String
deriving DecidableEq, Repr

/-- The backend as seen by app.js: one field per endpoint. `none` means the
fetch rejects or the body fails to parse; for the POST endpoints whose body
app.js never reads, only whether the promise resolves matters, but the body
is kept so the claims can speak about it. -/
structure Server where
  dashboard : Option DashboardData
  strategiesList : Option (List Strategy)
  positionsList : Option PositionsData
  riskMetricsResp : Option RiskData
  settings : Option SettingsData
  strategyAction : Option CloseResult
  closeResp : Option CloseResult
  exchangeTest : Option TestResult
deriving DecidableEq, Repr

/-- `loadDashboardData` (app.js:170-180).  On a successful fetch it assigns
`accountStats` and then calls `this.updateCharts(data)`; no `updateCharts`
method exists on the component, so that call throws a `TypeError` which the
`catch` block handles exactly like a failed fetch (log + `showError`). -/
def loadDashboardData (s : AppState) (srv : Server) : AppState × List Ev :=
  match srv.dashboard with
  | some d =>
      ({ s with accountStats := d.accountStats },
       [Ev.get "/api/dashboard", Ev.log "加载仪表盘数据失败",
        Ev.notify "error" "加载仪表盘数据失败"])
  | none =>
      (s, [Ev.get "/api/dashboard", Ev.log "加载仪表盘数据失败",
           Ev.notify "error" "加载仪表盘数据失败"])

/-- `loadStrategies` (app.js:182-191). -/
def loadStrategies (s : AppState) (srv : Server) : AppState × List Ev :=
  match srv.strategiesList with
  | some list => ({ s with strategies := list }, [Ev.get "/api/strategies"])
  | none =>
      (s, [Ev.get "/api/strategies", Ev.log "加载策略数据失败",
           Ev.notify "error" "加载策略数据失败"])

/-- `loadPositions` (app.js:193-203). -/
def loadPositions (s : AppState) (srv : Server) : AppState × List Ev :=
  match srv.positionsList with
  | some d =>
      ({ s with positions := d.positions, positionStats := d.stats },
       [Ev.get "/api/positions"])
  | none =>
      (s, [Ev.get "/api/positions", Ev.log "加载持仓数据失败",
           Ev.notify "error" "加载持仓数据失败"])

/-- `loadRiskData` (app.js:205-215). -/
def loadRiskData (s : AppState) (srv : Server) : AppState × List Ev :=
  match srv.riskMetricsResp with
  | some d =>
      ({ s with riskMetrics := d.metrics, riskAlerts := d.alerts },
       [Ev.get "/api/risk/metrics"])
  | none =>
      (s, [Ev.get "/api/risk/metrics", Ev.log "加载风控数据失败",
           Ev.notify "error" "加载风控数据失败"])

/-- `loadSettings` (app.js:217-228). -/
def loadSettings (s : AppState) (srv : Server) : AppState × List Ev :=
  match srv.settings with
  | some d =>
      ({ s with exchanges := d.exchanges,
                notificationSettings := d.notification,
                systemSettings := d.system },
       [Ev.get "/api/settings"])
  | none =>
      (s, [Ev.get "/api/settings", Ev.log "加载设置失败",
           Ev.notify "error" "加载设置失败"])

/-- `loadPageData` (app.js:150-168): dispatch on the page name; an unknown
page matches no `case` and does nothing. -/
def loadPageData (page : String) (s : AppState) (srv : Server) : AppState × List Ev :=
  if page = "dashboard" then loadDashboardData s srv
  else if page = "strategies" then loadStrategies s srv
  else if page = "positions" then loadPositions s srv
  else if page = "risk" then loadRiskData s srv
  else if page = "settings" then loadSettings s srv
  else (s, [])

/-- `changePage` (app.js:140-143): set `currentPage`, then load that page. -/
def changePage (page : String) (s : AppState) (srv : Server) : AppState × List Ev :=
  loadPageData page { s with currentPage := page } srv

/-- The ternary `strategy.status === 'active' ? 'pause' : 'start'`
(app.js:233). -/
def toggleStrategyAction (st : Strategy) : String :=
  if st.status = "active" then "pause" else "start"

/-- `toggleStrategy` (app.js:231-242): POST the action, then re-load the
strategy list (whose own `try`/`catch` swallows its failures, so this
method's `catch` fires only when the POST itself rejects).  The response
body is never read. -/
def toggleStrategy (st : Strategy) (s : AppState) (srv : Server) : AppState × List Ev :=
  let url := "/api/strategies/" ++ st.id ++ "/" ++ toggleStrategyAction st
  match srv.strategyAction with
  | some _ =>
      ((loadStrategies s srv).1, Ev.post url :: (loadStrategies s srv).2)
  | none =>
      (s, [Ev.post url, Ev.log "策略操作失败", Ev.notify "error" "策略操作失败"])

/-- `closePosition` (app.js:269-279): POST the close, then re-load positions.
The response body is never read, so the behaviour depends only on whether
the POST promise resolves. -/
def closePosition (p : Position) (s : AppState) (srv : Server) : AppState × List Ev :=
  let url := "/api/positions/" ++ p.id ++ "/close"
  match srv.closeResp with
  | some _ =>
      ((loadPositions s srv).1, Ev.post url :: (loadPositions s srv).2)
  | none =>
      (s, [Ev.post url, Ev.log "平仓失败", Ev.notify "error" "平仓失败"])

/-- `testExchangeConnection` (app.js:311-330): POST the credentials, parse
the response, and assign `exchange.status = data.status` in place — Vue
passes the array element by reference, so this mutates the matching entry
of `this.exchanges`. -/
def testExchangeConnection (ex : Exchange) (s : AppState) (srv : Server) :
    AppState × List Ev :=
  let url := "/api/exchanges/" ++ ex.id ++ "/test"
  match srv.exchangeTest with
  | some d =>
      ({ s with exchanges :=
            s.exchanges.map (fun e =>
              if e.id = ex.id then { e with status := d.status } else e) },
       [Ev.post url,
        Ev.notify "success"
          (ex.name ++ " 连接测试" ++ (if d.status = "CONNECTED" then "成功" else "失败"))])
  | none =>
      (s, [Ev.post url, Ev.log "测试连接失败", Ev.notify "error" "测试连接失败"])

/-- The interval passed to `setInterval` in `mounted` (app.js:412-414). -/
def pollIntervalMs : Nat := 30000

/-- The callback passed to `setInterval` in `mounted` (app.js:412-414):
`this.loadPageData(this.currentPage)`. -/
def pollTick (s : AppState) (srv : Server) : AppState × List Ev :=
  loadPageData s.currentPage s srv

end AppJS

/-! Formatting helpers of app.js.  They are embedded over `Rat` (the exact
decimal semantics of the values the dashboard formats); `Intl.NumberFormat`
for locale `en-US` rounds half away from zero, pads/limits to the configured
fraction digits, and groups the integer part with commas. -/

namespace AppJS

/-- Rounding used by `Intl.NumberFormat` (roundingMode `halfExpand`):
round half away from zero.  For `q = n/d` (with `d > 0`) and `n ≥ 0` this is
`⌊(2n + d) / 2d⌋`, computed with truncating integer division (which agrees
with floor on non-negative operands); negative inputs are rounded
symmetrically. -/
def roundHalfExpand (q : Rat) : Int :=
  let d : Int := (q.den : Int)
  if q.num < 0 then -((2 * (-q.num) + d) / (2 * d))
  else (2 * q.num + d) / (2 * d)

/-- Decimal digits of `n`; `fuel` bounds the recursion (any `fuel > log10 n`
gives all digits). -/
def natToDigits (fuel n : Nat) : List Char :=
  match fuel, n with
  | 0, _ => []
  | _ + 1, 0 => []
  | f + 1, m => natToDigits f (m / 10) ++ [Char.ofNat (48 + m % 10)]

def natStr (n : Nat) : String :=
  if n = 0 then "0" else String.mk (natToDigits (n + 1) n)

/-- Insert a thousands separator after every third digit, counting from the
right; the input is the reversed digit list. -/
def groupAux : Nat → List Char → List Char
  | _, [] => []
  | n, c :: cs =>
    if n = 3 ∧ cs ≠ [] then c :: ',' :: groupAux 1 cs
    else c :: groupAux (n + 1) cs

/-- `en-US` digit grouping of a digit string. -/
def groupDigits (s : String) : String :=
  String.mk (groupAux 1 s.data.reverse).reverse

def twoDigits (r : Nat) : String :=
  (if r < 10 then "0" else "") ++ natStr r

/-- Format `q` with exactly two fraction digits, rounded half away from zero,
with `en-US` grouping of the integer part. -/
def formatFixed2 (q : Rat) : String :=
  let cents : Int := roundHalfExpand (q * 100)
  let sign := if cents < 0 then "-" else ""
  let a := cents.natAbs
  sign ++ groupDigits (natStr (a / 100)) ++ "." ++ twoDigits (a % 100)

/-- `formatPercent` (app.js:360-366): `Intl.NumberFormat('en-US', style
percent, min/max fraction digits 2)` scales by 100, formats with two
fraction digits, and appends `%`. -/
def formatPercent (value : Rat) : String :=
  formatFixed2 (value * 100) ++ "%"

/-- `formatMoney` (app.js:353-358): `Intl.NumberFormat('en-US', currency
USD)` gives `$1,234.56`, negatives as `-$1,234.56`. -/
def formatMoney (value : Rat) : String :=
  (if value < 0 then "-$" else "$") ++ formatFixed2 |value|

/-- `formatNumber` (app.js:368-373). -/
def formatNumber (value : Rat) : String :=
  formatFixed2 value

/-- `formatDuration` (app.js:379-383). -/
def formatDuration (seconds : Nat) : String :=
  let hours := seconds / 3600
  let minutes := (seconds % 3600) / 60
  natStr hours ++ "h " ++ natStr minutes ++ "m"

/-- `getRiskClass` (app.js:385-389). -/
def getRiskClass (value : Rat) : String :=
  if value < 1/2 then "low-risk"
  else if value < 4/5 then "medium-risk"
  else "high-risk"

/-- Severity order of the risk classes, used to state monotonicity of the
bucketing. -/
def riskRank (c : String) : Nat :=
  if c = "low-risk" then 0 else if c = "medium-risk" then 1 else 2

end AppJS

namespace DashJS

/-- `performance` sub-object of a strategy card (part_000:107-108). -/
structure Performance where
  successful_trades : Nat
  total_profit : Rat
deriving DecidableEq, Repr

/-- A strategy as returned by `GET /api/strategy/list` and rendered by
`loadStrategies` (part_000:95-111). -/
structure StrategyInfo where
  name : String
  description : String
  is_active : Bool
  performance : Performance
deriving DecidableEq, Repr

/-- A position row as returned by `GET /api/monitor/positions` and rendered
by `updatePositions` (part_000:208-228). -/
structure PositionRow where
  exchange : String
  symbol : String
  side : String
  amount : Rat
  entry_price : Rat
  current_price : Rat
  pnl : Rat
deriving DecidableEq, Repr

/-- The overview payload read by `updateOverview` (part_000:175-199). -/
structure OverviewData where
  okx_equity : Rat
  binance_equity : Rat
  daily_pnl : Rat
  max_drawdown : Rat
  active_positions : Nat
  status : String
deriving DecidableEq, Repr

/-- One trade from `GET /api/monitor/trades` as used by `updatePnlChart`. -/
structure Trade where
  time : String
  profit : Rat
deriving DecidableEq, Repr

/-- One point of `performanceData.equity_history` (part_000:256-262). -/
structure EquityPoint where
  time : String
  equity : Rat
deriving DecidableEq, Repr

/-- Body of a successful `GET /api/monitor/performance` response. -/
structure PerformanceData where
  equity_history : List EquityPoint
deriving DecidableEq, Repr

/-- Body of a successful `POST /api/strategy/{name}/toggle` response. -/
structure ToggleResult where
  is_active : Bool
deriving DecidableEq, Repr

/-- The labels/data pair of a Chart.js dataset as this script drives it. -/
structure ChartData where
  labels : List String
  points : List Rat
deriving DecidableEq, Repr

/-- The backend as seen by the plain-DOM script; `none` means the fetch
rejects or the body fails to parse as JSON. -/
structure Server where
  strategyList : Option (List StrategyInfo)
  config : Option JsonVal
  overview : Option OverviewData
  positionsResp : Option (List PositionRow)
  performance : Option PerformanceData
  trades : Option (List Trade)
  toggleResp : String → Option ToggleResult
  closeResp : Option CloseResult

/-- The DOM/global state this script mutates: the rendered strategy cards,
the rendered position rows, the overview stat cards, the `configData`
global with its rendered form, and the two Chart.js instances.  Rendering
`innerHTML` from a fetched list is modelled by storing the list that the
template is instantiated with. -/
structure DomState where
  strategiesView : List StrategyInfo
  configData : Option JsonVal
  overviewView : Option OverviewData
  positionsView : List PositionRow
  equityChart : ChartData
  pnlChart : ChartData
deriving DecidableEq, Repr

/-- `loadStrategies` (part_000:89-115): render the fetched list into
`strategies-container`; on failure only `console.error` runs — no
notification is shown. -/
def loadStrategies (s : DomState) (srv : Server) : DomState × List Ev :=
  match srv.strategyList with
  | some list => ({ s with strategiesView := list }, [Ev.get "/api/strategy/list"])
  | none => (s, [Ev.get "/api/strategy/list", Ev.log "加载策略失败"])

/-- `loadConfig` (part_000:118-126): set the `configData` global and render
the form; on failure only `console.error` runs. -/
def loadConfig (s : DomState) (srv : Server) : DomState × List Ev :=
  match srv.config with
  | some c => ({ s with configData := some c }, [Ev.get "/api/config"])
  | none => (s, [Ev.get "/api/config", Ev.log "加载配置失败"])

/-- `updateOverview` (part_000:175-199): rewrite the stat cards and status
indicator from the fetched payload; on failure only `console.error` runs. -/
def updateOverview (s : DomState) (srv : Server) : DomState × List Ev :=
  match srv.overview with
  | some d => ({ s with overviewView := some d }, [Ev.get "/api/monitor/overview"])
  | none => (s, [Ev.get "/api/monitor/overview", Ev.log "更新总览数据失败"])

/-- `updatePositions` (part_000:202-233): rewrite `positions-body` from the
fetched list; on failure only `console.error` runs. -/
def updatePositions (s : DomState) (srv : Server) : DomState × List Ev :=
  match srv.positionsResp with
  | some list => ({ s with positionsView := list }, [Ev.get "/api/monitor/positions"])
  | none => (s, [Ev.get "/api/monitor/positions", Ev.log "更新持仓数据失败"])

/-- The date grouping key of `updatePnlChart`: `trade.time.split('T')[0]`,
the prefix of the time string before its first `'T'` (the whole string when
no `'T'` occurs), formulated over the character list. -/
def dateOf (time : String) : String :=
  String.mk (time.data.takeWhile (fun c => c != 'T'))

/-- One step of `dailyPnl[date] = (dailyPnl[date] || 0) + parseFloat(trade.profit)`
on the insertion-ordered key/value list a JS object literal amounts to:
updating an existing key keeps its position, a new key is appended. -/
def upsertPnl : List (String × Rat) → String → Rat → List (String × Rat)
  | [], d, p => [(d, p)]
  | (k, v) :: rest, d, p =>
    if k = d then (k, v + p) :: rest else (k, v) :: upsertPnl rest d p

/-- The `dailyPnl` object built by the `trades.forEach` loop
(part_000:268-272). -/
def buildDailyPnl (trades : List Trade) : List (String × Rat) :=
  trades.foldl (fun m t => upsertPnl m (dateOf t.time) t.profit) []

/-- `updatePnlChart` (part_000:265-277) on a present trade list and chart
(the `!trades || !charts.pnl` guard returns early otherwise): labels are
`Object.keys(dailyPnl)`, data `Object.values(dailyPnl)`. -/
def updatePnlChart (trades : List Trade) : ChartData :=
  let m := buildDailyPnl trades
  { labels := m.map Prod.fst, points := m.map Prod.snd }

/-- `updateEquityChart` (part_000:256-262) on a present history and chart. -/
def updateEquityChart (history : List EquityPoint) : ChartData :=
  { labels := history.map (fun item => item.time),
    points := history.map (fun item => item.equity) }

/-- `updateCharts` (part_000:236-253): fetch performance, then trades, then
update both charts; any rejection or parse failure lands in the single
`catch`, leaving the charts as they were. -/
def updateCharts (s : DomState) (srv : Server) : DomState × List Ev :=
  match srv.performance with
  | none => (s, [Ev.get "/api/monitor/performance", Ev.log "更新图表失败"])
  | some perf =>
    match srv.trades with
    | none =>
        (s, [Ev.get "/api/monitor/performance", Ev.get "/api/monitor/trades",
             Ev.log "更新图表失败"])
    | some trades =>
        ({ s with equityChart := updateEquityChart perf.equity_history,
                  pnlChart := updatePnlChart trades },
         [Ev.get "/api/monitor/performance", Ev.get "/api/monitor/trades"])

/-- `toggleStrategy` (part_000:280-299): POST the toggle, notify according to
`result.is_active`, then reload the strategy list (whose own `try`/`catch`
swallows its failures). -/
def toggleStrategy (strategyName : String) (s : DomState) (srv : Server) :
    DomState × List Ev :=
  let url := "/api/strategy/" ++ strategyName ++ "/toggle"
  match srv.toggleResp strategyName with
  | some r =>
      let note :=
        if r.is_active then Ev.notify "success" (strategyName ++ " 策略已启用")
        else Ev.notify "warning" (strategyName ++ " 策略已禁用")
      ((loadStrategies s srv).1, Ev.post url :: note :: (loadStrategies s srv).2)
  | none =>
      (s, [Ev.post url, Ev.log "切换策略状态失败", Ev.notify "error" "操作失败，请重试"])

/-- `closePosition` (part_000:389-415): after the `confirm` dialog, POST the
close request; only `result.status === 'success'` notifies success and
refreshes the positions, any other status shows an error notification and
does not touch the view. -/
def closePosition (confirmed : Bool) (exchange symbol : String)
    (s : DomState) (srv : Server) : DomState × List Ev :=
  if !confirmed then (s, [])
  else
    match srv.closeResp with
    | some r =>
        if r.status = "success" then
          ((updatePositions s srv).1,
           Ev.post "/api/monitor/close-position" ::
             Ev.notify "success" "平仓成功" :: (updatePositions s srv).2)
        else
          (s, [Ev.post "/api/monitor/close-position",
               Ev.notify "error" ("平仓失败: " ++ r.message)])
    | none =>
        (s, [Ev.post "/api/monitor/close-position", Ev.log "平仓操作失败",
             Ev.notify "error" "平仓操作失败，请重试"])

/-- `switchPanel` (part_000:376-386): strip `active` from every panel and nav
link, then set it on those whose id matches `panelId`.  It performs no
fetch and triggers no load — the polling loop alone refreshes data. -/
def switchPanel (panelId : String) (panels navLinks : List (String × Bool)) :
    List (String × Bool) × List (String × Bool) × List Ev :=
  (panels.map (fun p => (p.1, p.1 == panelId)),
   navLinks.map (fun l => (l.1, l.1 == panelId)),
   [])

/-- The interval passed to `setInterval` in `startDataUpdates`
(part_000:41-47). -/
def updateIntervalMs : Nat := 5000

/-- The callback passed to `setInterval` in `startDataUpdates`
(part_000:42-46): `updateOverview(); updatePositions(); updateCharts();`. -/
def dataUpdateTick (s : DomState) (srv : Server) : DomState × List Ev :=
  let (s1, e1) := updateOverview s srv
  let (s2, e2) := updatePositions s1 srv
  let (s3, e3) := updateCharts s2 srv
  (s3, e1 ++ e2 ++ e3)

end DashJS

/-! Concrete states and servers used by witnesses and counterexamples. -/

def sampleAppState : AppJS.AppState :=
  { currentPage := "dashboard", accountStats := ⟨"as"⟩,
    strategies := [⟨"s1", "alpha", "active"⟩],
    positions := [⟨"12", ⟨"btc"⟩⟩], positionStats := ⟨"ps"⟩,
    riskMetrics := ⟨"rm"⟩, riskAlerts := ⟨"ra"⟩,
    exchanges := [⟨"binance", "Binance", "keyA", "sec", false, "DISCONNECTED"⟩],
    notificationSettings := ⟨"ns"⟩, systemSettings := ⟨"ss"⟩ }

def sampleFailServer : AppJS.Server :=
  { dashboard := none, strategiesList := none, positionsList := none,
    riskMetricsResp := none, settings := none, strategyAction := none,
    closeResp := none, exchangeTest := none }

def sampleOkServer : AppJS.Server :=
  { dashboard := some ⟨⟨"as2"⟩⟩, strategiesList := some [],
    positionsList := some ⟨[], ⟨"ps2"⟩⟩, riskMetricsResp := some ⟨⟨"m"⟩, ⟨"a"⟩⟩,
    settings := some ⟨[⟨"okx", "OKX", "", "", false, "DISCONNECTED"⟩], ⟨"n2"⟩, ⟨"s2"⟩⟩,
    strategyAction := some ⟨"success", "ok"⟩, closeResp := some ⟨"success", "ok"⟩,
    exchangeTest := some ⟨"CONNECTED"⟩ }

def sampleDomState : DashJS.DomState :=
  { strategiesView := [⟨"grid", "mean reversion", true, ⟨3, 5⟩⟩],
    configData := none, overviewView := none,
    positionsView := [⟨"okx", "BTCUSDT", "long", 1, 100, 110, 10⟩],
    equityChart := ⟨[], []⟩, pnlChart := ⟨[], []⟩ }

def sampleDashFailServer : DashJS.Server :=
  { strategyList := none, config := none, overview := none, positionsResp := none,
    performance := none, trades := none, toggleResp := fun _ => none,
    closeResp := none }

def sampleDashOkServer : DashJS.Server :=
  { strategyList := some [], config := some ⟨"cfg"⟩,
    overview := some ⟨1, 2, 3, 0, 1, "running"⟩,
    positionsResp := some [], performance := some ⟨[]⟩, trades := some [],
    toggleResp := fun _ => some ⟨true⟩, closeResp := some ⟨"success", "done"⟩ }

def mergeTestExchange : AppJS.Exchange :=
  ⟨"binance", "Binance", "keyA", "sec", false, "DISCONNECTED"⟩

def mergeTestServer : AppJS.Server :=
  { dashboard := none, strategiesList := none, positionsList := none,
    riskMetricsResp := none,
    settings := some ⟨[mergeTestExchange], ⟨"n"⟩, ⟨"y"⟩⟩,
    strategyAction := none, closeResp := none, exchangeTest := some ⟨"CONNECTED"⟩ }

def stateAfterSettingsLoad : AppJS.AppState :=
  (AppJS.loadSettings sampleAppState mergeTestServer).1

def closeErrServer : AppJS.Server :=
  { dashboard := none, strategiesList := none,
    positionsList := some ⟨[], ⟨"ps3"⟩⟩,
    riskMetricsResp := none, settings := none, strategyAction := none,
    closeResp := some ⟨"error", "insufficient margin"⟩, exchangeTest := none }

namespace DashJS

/-- `(dailyPnl[date] || 0)`: the accumulated value at a key, defaulting to 0
when the key is absent. -/
def lookupD (m : List (String × Rat)) (d : String) : Rat :=
  (m.lookup d).getD 0

end DashJS

def pnlTrades : List DashJS.Trade :=
  [⟨"2024-01-01T10:00", 5⟩, ⟨"2024-01-02T09:00", 3⟩, ⟨"2024-01-01T12:00", 2⟩]

/-! ## Claims -/

/-- C4: `getRiskClass` returns the low bucket exactly when `value < 0.5`, the
medium bucket exactly when `0.5 ≤ value < 0.8`, the high bucket exactly when
`value ≥ 0.8`; the buckets cover all inputs without overlap, and the
assignment is monotone in the input. -/
theorem getRiskClass_buckets (v w : Rat) :
    (AppJS.getRiskClass v = "low-risk" ↔ v < 1/2) ∧
    (AppJS.getRiskClass v = "medium-risk" ↔ 1/2 ≤ v ∧ v < 4/5) ∧
    (AppJS.getRiskClass v = "high-risk" ↔ 4/5 ≤ v) ∧
    (v ≤ w → AppJS.riskRank (AppJS.getRiskClass v) ≤ AppJS.riskRank (AppJS.getRiskClass w)) := by
  unfold AppJS.getRiskClass
  refine ⟨?_, ?_, ?_, ?_⟩
  · split_ifs with h1 h2 <;> simp_all <;> linarith
  · split_ifs with h1 h2 <;> simp_all <;> constructor <;> intro h <;> first | linarith | simp_all
  · split_ifs with h1 h2 <;> simp_all <;> linarith
  · intro hvw
    split_ifs with h1 h2 h3 h4 <;>
      first
        | decide
        | (exfalso; push_neg at *; linarith)

theorem getRiskClass_buckets_witness :
    AppJS.riskRank (AppJS.getRiskClass 0) ≤ AppJS.riskRank (AppJS.getRiskClass 1) :=
  (getRiskClass_buckets 0 1).2.2.2 (by norm_num)

/-- C5: the percent and currency formatters are pure and deterministic — the
same rational input always yields the same string — and
`formatPercent(0.0523)` is the string `"5.23%"`. -/
theorem formatters_pure :
    AppJS.formatPercent (523 / 10000 : Rat) = "5.23%" ∧
    ∀ v w : Rat, v = w →
      AppJS.formatPercent v = AppJS.formatPercent w ∧
      AppJS.formatMoney v = AppJS.formatMoney w := by
  refine ⟨by with_unfolding_all decide, ?_⟩
  intro v w h
  rw [h]
  exact ⟨rfl, rfl⟩

theorem formatters_pure_witness :
    AppJS.formatPercent 1 = AppJS.formatPercent 1 ∧
    AppJS.formatMoney 1 = AppJS.formatMoney 1 :=
  formatters_pure.2 1 1 rfl

/-- C9: the Vue `toggleStrategy` POSTs to the `pause` action exactly when the
strategy's status is `"active"`, to `start` for every other status, and to
no other action name. -/
theorem toggleStrategy_action_choice (st : AppJS.Strategy) (s : AppJS.AppState)
    (srv : AppJS.Server) :
    (AppJS.toggleStrategy st s srv).2.head? =
      some (Ev.post ("/api/strategies/" ++ st.id ++ "/" ++ AppJS.toggleStrategyAction st)) ∧
    (AppJS.toggleStrategyAction st = "pause" ↔ st.status = "active") ∧
    (AppJS.toggleStrategyAction st = "pause" ∨ AppJS.toggleStrategyAction st = "start") := by
  refine ⟨?_, ?_, ?_⟩
  · unfold AppJS.toggleStrategy
    cases srv.strategyAction <;> simp
  · unfold AppJS.toggleStrategyAction
    split_ifs with h <;> simp [h]
  · unfold AppJS.toggleStrategyAction
    split_ifs <;> simp

/-- C3: a `toggleStrategy` call whose POST resolves successfully issues
exactly one GET to the strategy-list endpoint, in both clients. -/
theorem toggleStrategy_single_refetch
    (st : AppJS.Strategy) (s : AppJS.AppState) (srv : AppJS.Server) (r1 : CloseResult)
    (sname : String) (s2 : DashJS.DomState) (srv2 : DashJS.Server) (r2 : DashJS.ToggleResult)
    (h1 : srv.strategyAction = some r1) (h2 : srv2.toggleResp sname = some r2) :
    countGets "/api/strategies" (AppJS.toggleStrategy st s srv).2 = 1 ∧
    countGets "/api/strategy/list" (DashJS.toggleStrategy sname s2 srv2).2 = 1 := by
  constructor
  · unfold AppJS.toggleStrategy
    rw [h1]
    unfold AppJS.loadStrategies
    cases srv.strategiesList <;>
      simp [countGets, List.countP_cons, isGetTo]
  · unfold DashJS.toggleStrategy
    rw [h2]
    unfold DashJS.loadStrategies
    obtain ⟨b⟩ := r2
    cases b <;> cases srv2.strategyList <;>
      simp [countGets, List.countP_cons, isGetTo]

theorem toggleStrategy_single_refetch_witness :
    countGets "/api/strategies"
      (AppJS.toggleStrategy ⟨"s1", "alpha", "active"⟩ sampleAppState sampleOkServer).2 = 1 ∧
    countGets "/api/strategy/list"
      (DashJS.toggleStrategy "grid" sampleDomState sampleDashOkServer).2 = 1 :=
  toggleStrategy_single_refetch ⟨"s1", "alpha", "active"⟩ sampleAppState sampleOkServer
    ⟨"success", "ok"⟩ "grid" sampleDomState sampleDashOkServer ⟨true⟩ rfl rfl

/-- C8 counterexample: the only 5000 ms client is the plain-DOM script, and
its poll tick runs a fixed update set — overview, positions, charts —
irrespective of which panel is active (the callback does not even consult
the active panel).  With the strategies or config panel active, a tick
issues no GET to that view's endpoint, so 60 seconds of 5000 ms polling
yield zero — not twelve — fetch cycles for the active view. -/
theorem dash_tick_ignores_active_panel :
    countGets "/api/strategy/list"
      (DashJS.dataUpdateTick sampleDomState sampleDashOkServer).2 = 0 ∧
    countGets "/api/config"
      (DashJS.dataUpdateTick sampleDomState sampleDashOkServer).2 = 0 ∧
    countGets "/api/monitor/overview"
      (DashJS.dataUpdateTick sampleDomState sampleDashOkServer).2 = 1 := by
  with_unfolding_all decide

/-- C8 (amended): both clients poll on a fixed `setInterval` whose default
interval — 5000 ms in the plain-DOM script, 30000 ms in the Vue app — lies
between 5 and 30 seconds, and a 5000 ms interval fires exactly 12 times in
a 60000 ms window.  The Vue tick loads the currently active page (shown for
the positions view: its first effect is the GET to `/api/positions`); the
plain-DOM tick instead always fetches the fixed monitor set — overview,
positions, performance — exactly once each and never the strategy-list or
config endpoints, whatever panel is active. -/
theorem polling_fixed_interval (s : AppJS.AppState) (srv : AppJS.Server)
    (h : s.currentPage = "positions") :
    DashJS.updateIntervalMs = 5000 ∧ AppJS.pollIntervalMs = 30000 ∧
    (5000 ≤ DashJS.updateIntervalMs ∧ DashJS.updateIntervalMs ≤ 30000) ∧
    (5000 ≤ AppJS.pollIntervalMs ∧ AppJS.pollIntervalMs ≤ 30000) ∧
    setIntervalTicks DashJS.updateIntervalMs 60000 = 12 ∧
    (AppJS.pollTick s srv).2.head? = some (Ev.get "/api/positions") ∧
    (∀ (s2 : DashJS.DomState) (srv2 : DashJS.Server),
      countGets "/api/monitor/overview" (DashJS.dataUpdateTick s2 srv2).2 = 1 ∧
      countGets "/api/monitor/positions" (DashJS.dataUpdateTick s2 srv2).2 = 1 ∧
      countGets "/api/monitor/performance" (DashJS.dataUpdateTick s2 srv2).2 = 1 ∧
      countGets "/api/strategy/list" (DashJS.dataUpdateTick s2 srv2).2 = 0 ∧
      countGets "/api/config" (DashJS.dataUpdateTick s2 srv2).2 = 0) := by
  refine ⟨rfl, rfl, by decide, by decide, rfl, ?_, ?_⟩
  · unfold AppJS.pollTick AppJS.loadPageData
    rw [h]
    rw [if_neg (by decide), if_neg (by decide), if_pos rfl]
    unfold AppJS.loadPositions
    cases srv.positionsList <;> simp
  · intro s2 srv2
    unfold DashJS.dataUpdateTick DashJS.updateOverview DashJS.updatePositions
      DashJS.updateCharts
    cases srv2.overview <;> cases srv2.positionsResp <;>
      cases srv2.performance <;> cases srv2.trades <;>
        simp [countGets, List.countP_append, List.countP_cons, isGetTo]

theorem polling_fixed_interval_witness :
    ((AppJS.pollTick { sampleAppState with currentPage := "positions" }
        sampleFailServer).2.head? = some (Ev.get "/api/positions")) ∧
    countGets "/api/strategy/list"
      (DashJS.dataUpdateTick sampleDomState sampleDashFailServer).2 = 0 :=
  ⟨(polling_fixed_interval { sampleAppState with currentPage := "positions" }
      sampleFailServer rfl).2.2.2.2.2.1,
   ((polling_fixed_interval { sampleAppState with currentPage := "positions" }
      sampleFailServer rfl).2.2.2.2.2.2 sampleDomState sampleDashFailServer).2.2.2.1⟩

/-- C7 counterexample: `switchPanel` switches the active panel (exactly one
panel ends up active) but performs no fetch at all — no load of the newly
active view is triggered, contradicting the claim. -/
theorem switchPanel_triggers_no_load :
    ((DashJS.switchPanel "config"
        [("overview", true), ("strategies", false), ("config", false)]
        [("overview", true), ("strategies", false), ("config", false)]).1.countP
          (fun p => p.2) = 1) ∧
    (DashJS.switchPanel "config"
        [("overview", true), ("strategies", false), ("config", false)]
        [("overview", true), ("strategies", false), ("config", false)]).2.2 = [] := by
  decide

lemma loadPageData_currentPage (page : String) (s : AppJS.AppState)
    (srv : AppJS.Server) :
    (AppJS.loadPageData page s srv).1.currentPage = s.currentPage := by
  unfold AppJS.loadPageData
  split_ifs
  · unfold AppJS.loadDashboardData; cases srv.dashboard <;> rfl
  · unfold AppJS.loadStrategies; cases srv.strategiesList <;> rfl
  · unfold AppJS.loadPositions; cases srv.positionsList <;> rfl
  · unfold AppJS.loadRiskData; cases srv.riskMetricsResp <;> rfl
  · unfold AppJS.loadSettings; cases srv.settings <;> rfl
  · rfl

/-- C7 (amended): `switchPanel` marks exactly one panel active (given the
target exists and panel ids are distinct) but triggers no load; `changePage`
sets the single current page and issues exactly one GET for the newly
active view (shown for the positions page). -/
theorem switch_view_exclusive (panelId : String) (panels navs : List (String × Bool))
    (hmem : panelId ∈ panels.map Prod.fst) (hnd : (panels.map Prod.fst).Nodup)
    (page : String) (s : AppJS.AppState) (srv : AppJS.Server) :
    (DashJS.switchPanel panelId panels navs).1.countP (fun p => p.2) = 1 ∧
    (DashJS.switchPanel panelId panels navs).2.2 = [] ∧
    (AppJS.changePage page s srv).1.currentPage = page ∧
    countGets "/api/positions" (AppJS.changePage "positions" s srv).2 = 1 := by
  refine ⟨?_, rfl, ?_, ?_⟩
  · unfold DashJS.switchPanel
    have h1 : List.countP (fun (p : String × Bool) => p.2)
        (panels.map (fun p => (p.1, p.1 == panelId)))
        = List.countP (fun (p : String × Bool) => p.1 == panelId) panels := by
      rw [List.countP_map]
      rfl
    have h2 : List.countP (fun (p : String × Bool) => p.1 == panelId) panels
        = List.countP (fun a => a == panelId) (panels.map Prod.fst) := by
      rw [List.countP_map]
      rfl
    rw [h1, h2]
    exact List.count_eq_one_of_mem hnd hmem
  · unfold AppJS.changePage
    rw [loadPageData_currentPage]
  · unfold AppJS.changePage AppJS.loadPageData
    rw [if_neg (by decide), if_neg (by decide), if_pos rfl]
    unfold AppJS.loadPositions
    cases srv.positionsList <;> simp [countGets, List.countP_cons, isGetTo]

theorem switch_view_exclusive_witness :
    (DashJS.switchPanel "config"
        [("overview", false), ("config", true)]
        [("overview", false), ("config", true)]).1.countP (fun p => p.2) = 1 ∧
    (DashJS.switchPanel "config"
        [("overview", false), ("config", true)]
        [("overview", false), ("config", true)]).2.2 = [] ∧
    (AppJS.changePage "risk" sampleAppState sampleFailServer).1.currentPage = "risk" ∧
    countGets "/api/positions"
      (AppJS.changePage "positions" sampleAppState sampleFailServer).2 = 1 :=
  switch_view_exclusive "config" [("overview", false), ("config", true)]
    [("overview", false), ("config", true)] (by decide) (by decide)
    "risk" sampleAppState sampleFailServer

/-- C6 counterexample: right after a successful settings fetch delivered the
exchange list, `testExchangeConnection` issues no GET yet changes the
displayed exchanges slice, producing a value that merges the previously
fetched fields (`apiKey` is kept) with the response's `status` — the
displayed slice is no longer a wholesale snapshot of any fetch. -/
theorem testExchange_merges_status_field :
    stateAfterSettingsLoad.exchanges = [mergeTestExchange] ∧
    (AppJS.testExchangeConnection mergeTestExchange stateAfterSettingsLoad
        mergeTestServer).2.countP isAnyGet = 0 ∧
    (AppJS.testExchangeConnection mergeTestExchange stateAfterSettingsLoad
        mergeTestServer).1.exchanges ≠ stateAfterSettingsLoad.exchanges ∧
    (AppJS.testExchangeConnection mergeTestExchange stateAfterSettingsLoad
        mergeTestServer).1.exchanges =
      [⟨"binance", "Binance", "keyA", "sec", false, "CONNECTED"⟩] := by
  decide

/-- C6 (amended): every load operation replaces its slices wholesale with the
fetched payload — the resulting slice depends only on the response, not the
prior state — but `testExchangeConnection` is the exception: it merges the
returned `status` into the matching entry of the existing exchanges slice
in place, without any re-fetch. -/
theorem displayed_state_snapshot
    (s : AppJS.AppState) (srv : AppJS.Server)
    (dd : AppJS.DashboardData) (ls : List AppJS.Strategy) (pd : AppJS.PositionsData)
    (rd : AppJS.RiskData) (sd : AppJS.SettingsData) (tr : AppJS.TestResult)
    (ex : AppJS.Exchange)
    (h1 : srv.dashboard = some dd) (h2 : srv.strategiesList = some ls)
    (h3 : srv.positionsList = some pd) (h4 : srv.riskMetricsResp = some rd)
    (h5 : srv.settings = some sd) (h6 : srv.exchangeTest = some tr) :
    (AppJS.loadDashboardData s srv).1.accountStats = dd.accountStats ∧
    (AppJS.loadStrategies s srv).1.strategies = ls ∧
    (AppJS.loadPositions s srv).1.positions = pd.positions ∧
    (AppJS.loadPositions s srv).1.positionStats = pd.stats ∧
    (AppJS.loadRiskData s srv).1.riskMetrics = rd.metrics ∧
    (AppJS.loadRiskData s srv).1.riskAlerts = rd.alerts ∧
    (AppJS.loadSettings s srv).1.exchanges = sd.exchanges ∧
    (AppJS.loadSettings s srv).1.notificationSettings = sd.notification ∧
    (AppJS.loadSettings s srv).1.systemSettings = sd.system ∧
    (AppJS.testExchangeConnection ex s srv).1.exchanges =
      s.exchanges.map (fun e => if e.id = ex.id then { e with status := tr.status } else e) := by
  unfold AppJS.loadDashboardData AppJS.loadStrategies AppJS.loadPositions
    AppJS.loadRiskData AppJS.loadSettings AppJS.testExchangeConnection
  rw [h1, h2, h3, h4, h5, h6]
  exact ⟨rfl, rfl, rfl, rfl, rfl, rfl, rfl, rfl, rfl, rfl⟩

theorem displayed_state_snapshot_witness :
    (AppJS.loadSettings sampleAppState sampleOkServer).1.exchanges =
      [⟨"okx", "OKX", "", "", false, "DISCONNECTED"⟩] ∧
    (AppJS.testExchangeConnection mergeTestExchange sampleAppState sampleOkServer).1.exchanges =
      sampleAppState.exchanges.map
        (fun e => if e.id = mergeTestExchange.id then { e with status := "CONNECTED" } else e) :=
  ⟨(displayed_state_snapshot sampleAppState sampleOkServer ⟨⟨"as2"⟩⟩ [] ⟨[], ⟨"ps2"⟩⟩
      ⟨⟨"m"⟩, ⟨"a"⟩⟩ ⟨[⟨"okx", "OKX", "", "", false, "DISCONNECTED"⟩], ⟨"n2"⟩, ⟨"s2"⟩⟩
      ⟨"CONNECTED"⟩ mergeTestExchange rfl rfl rfl rfl rfl rfl).2.2.2.2.2.2.1,
   (displayed_state_snapshot sampleAppState sampleOkServer ⟨⟨"as2"⟩⟩ [] ⟨[], ⟨"ps2"⟩⟩
      ⟨⟨"m"⟩, ⟨"a"⟩⟩ ⟨[⟨"okx", "OKX", "", "", false, "DISCONNECTED"⟩], ⟨"n2"⟩, ⟨"s2"⟩⟩
      ⟨"CONNECTED"⟩ mergeTestExchange rfl rfl rfl rfl rfl rfl).2.2.2.2.2.2.2.2.2⟩

/-- C1 counterexample: in the plain-DOM script a failed strategy-list fetch
leaves the rendered data unchanged but emits NO error notification — its
`catch` only writes to the console — contradicting "exactly one error
notification is emitted for that failed load". -/
theorem dash_loadStrategies_fail_no_notification :
    (DashJS.loadStrategies sampleDomState sampleDashFailServer).1 = sampleDomState ∧
    countErrorNotifies (DashJS.loadStrategies sampleDomState sampleDashFailServer).2 = 0 ∧
    ¬ countErrorNotifies (DashJS.loadStrategies sampleDomState sampleDashFailServer).2 = 1 := by
  with_unfolding_all decide

/-- C1 (amended): a failed load (fetch rejects or body fails to parse)
leaves the view state unchanged in both clients; each Vue load emits exactly
one error notification, while the plain-DOM load/update functions only log
to the console and emit none. -/
theorem failed_load_preserves_state
    (s : AppJS.AppState) (srv : AppJS.Server)
    (s2 : DashJS.DomState) (srv2 : DashJS.Server)
    (hd : srv.dashboard = none) (hs : srv.strategiesList = none)
    (hp : srv.positionsList = none) (hr : srv.riskMetricsResp = none)
    (hg : srv.settings = none)
    (k1 : srv2.strategyList = none) (k2 : srv2.config = none)
    (k3 : srv2.overview = none) (k4 : srv2.positionsResp = none) :
    ((AppJS.loadDashboardData s srv).1 = s ∧
      countErrorNotifies (AppJS.loadDashboardData s srv).2 = 1) ∧
    ((AppJS.loadStrategies s srv).1 = s ∧
      countErrorNotifies (AppJS.loadStrategies s srv).2 = 1) ∧
    ((AppJS.loadPositions s srv).1 = s ∧
      countErrorNotifies (AppJS.loadPositions s srv).2 = 1) ∧
    ((AppJS.loadRiskData s srv).1 = s ∧
      countErrorNotifies (AppJS.loadRiskData s srv).2 = 1) ∧
    ((AppJS.loadSettings s srv).1 = s ∧
      countErrorNotifies (AppJS.loadSettings s srv).2 = 1) ∧
    ((DashJS.loadStrategies s2 srv2).1 = s2 ∧
      countErrorNotifies (DashJS.loadStrategies s2 srv2).2 = 0) ∧
    ((DashJS.loadConfig s2 srv2).1 = s2 ∧
      countErrorNotifies (DashJS.loadConfig s2 srv2).2 = 0) ∧
    ((DashJS.updateOverview s2 srv2).1 = s2 ∧
      countErrorNotifies (DashJS.updateOverview s2 srv2).2 = 0) ∧
    ((DashJS.updatePositions s2 srv2).1 = s2 ∧
      countErrorNotifies (DashJS.updatePositions s2 srv2).2 = 0) := by
  unfold AppJS.loadDashboardData AppJS.loadStrategies AppJS.loadPositions
    AppJS.loadRiskData AppJS.loadSettings DashJS.loadStrategies DashJS.loadConfig
    DashJS.updateOverview DashJS.updatePositions
  rw [hd, hs, hp, hr, hg, k1, k2, k3, k4]
  exact ⟨⟨rfl, rfl⟩, ⟨rfl, rfl⟩, ⟨rfl, rfl⟩, ⟨rfl, rfl⟩, ⟨rfl, rfl⟩,
         ⟨rfl, rfl⟩, ⟨rfl, rfl⟩, ⟨rfl, rfl⟩, ⟨rfl, rfl⟩⟩

theorem failed_load_preserves_state_witness :
    (AppJS.loadPositions sampleAppState sampleFailServer).1 = sampleAppState ∧
    countErrorNotifies (AppJS.loadPositions sampleAppState sampleFailServer).2 = 1 :=
  (failed_load_preserves_state sampleAppState sampleFailServer sampleDomState
      sampleDashFailServer rfl rfl rfl rfl rfl rfl rfl rfl rfl).2.2.1

/-- C2 counterexample: the Vue `closePosition` never reads the response
body: on a resolved POST whose body carries `status` `"error"` it still
issues the follow-up GET to the positions endpoint, replaces the positions
slice with the re-fetched list, and shows no error notification —
contradicting the claimed behaviour for non-success statuses. -/
theorem closePosition_ignores_status :
    closeErrServer.closeResp = some ⟨"error", "insufficient margin"⟩ ∧
    countGets "/api/positions"
      (AppJS.closePosition ⟨"12", ⟨"btc"⟩⟩ sampleAppState closeErrServer).2 = 1 ∧
    countErrorNotifies
      (AppJS.closePosition ⟨"12", ⟨"btc"⟩⟩ sampleAppState closeErrServer).2 = 0 ∧
    (AppJS.closePosition ⟨"12", ⟨"btc"⟩⟩ sampleAppState closeErrServer).1 ≠
      sampleAppState := by
  with_unfolding_all decide

/-- C2 (amended): the plain-DOM `closePosition` follows the
`status`/`message` contract — on success status it notifies success and
re-fetches the positions exactly once with no error; on any other status,
or when the POST rejects or fails to parse, it emits exactly one error
notification, performs no re-fetch, and leaves the state untouched.  The
Vue `closePosition` ignores the response body: it re-fetches whenever the
POST resolves (its only state change being the wholesale result of that
re-fetch), and reports an error only when the POST rejects. -/
theorem submitted_action_status_handling
    (ex sym : String) (s2 : DashJS.DomState) (srv2 : DashJS.Server) (r : CloseResult)
    (p : AppJS.Position) (s : AppJS.AppState) (srv : AppJS.Server) (r1 : CloseResult)
    (pd : AppJS.PositionsData) :
    (srv2.closeResp = some r → r.status = "success" →
        countGets "/api/monitor/positions" (DashJS.closePosition true ex sym s2 srv2).2 = 1 ∧
        countErrorNotifies (DashJS.closePosition true ex sym s2 srv2).2 = 0) ∧
    (srv2.closeResp = some r → ¬ r.status = "success" →
        (DashJS.closePosition true ex sym s2 srv2).1 = s2 ∧
        countErrorNotifies (DashJS.closePosition true ex sym s2 srv2).2 = 1 ∧
        countGets "/api/monitor/positions" (DashJS.closePosition true ex sym s2 srv2).2 = 0) ∧
    (srv2.closeResp = none →
        (DashJS.closePosition true ex sym s2 srv2).1 = s2 ∧
        countErrorNotifies (DashJS.closePosition true ex sym s2 srv2).2 = 1 ∧
        countGets "/api/monitor/positions" (DashJS.closePosition true ex sym s2 srv2).2 = 0) ∧
    (srv.closeResp = some r1 →
        countGets "/api/positions" (AppJS.closePosition p s srv).2 = 1) ∧
    (srv.closeResp = some r1 → srv.positionsList = some pd →
        countErrorNotifies (AppJS.closePosition p s srv).2 = 0 ∧
        (AppJS.closePosition p s srv).1 =
          { s with positions := pd.positions, positionStats := pd.stats }) ∧
    (srv.closeResp = none →
        (AppJS.closePosition p s srv).1 = s ∧
        countErrorNotifies (AppJS.closePosition p s srv).2 = 1 ∧
        countGets "/api/positions" (AppJS.closePosition p s srv).2 = 0) := by
  refine ⟨?_, ?_, ?_, ?_, ?_, ?_⟩
  · intro hc hsucc
    unfold DashJS.closePosition DashJS.updatePositions
    rw [hc]
    simp only [Bool.not_true, Bool.false_eq_true, if_false, if_pos hsucc]
    cases srv2.positionsResp <;>
      simp [countGets, countErrorNotifies, List.countP_cons, isGetTo, isErrorNotify]
  · intro hc hne
    unfold DashJS.closePosition
    rw [hc]
    simp only [Bool.not_true, Bool.false_eq_true, if_false, if_neg hne]
    refine ⟨?_, ?_, ?_⟩ <;> first | trivial | rfl
  · intro hc
    unfold DashJS.closePosition
    rw [hc]
    refine ⟨?_, ?_, ?_⟩ <;> first | trivial | rfl
  · intro hc
    unfold AppJS.closePosition AppJS.loadPositions
    rw [hc]
    cases srv.positionsList <;>
      simp [countGets, countErrorNotifies, List.countP_cons, isGetTo, isErrorNotify]
  · intro hc hpd
    unfold AppJS.closePosition AppJS.loadPositions
    rw [hc, hpd]
    refine ⟨?_, ?_⟩ <;> first | trivial | rfl
  · intro hc
    unfold AppJS.closePosition
    rw [hc]
    refine ⟨?_, ?_, ?_⟩ <;> first | trivial | rfl

theorem submitted_action_status_handling_witness :
    countGets "/api/monitor/positions"
      (DashJS.closePosition true "okx" "BTCUSDT" sampleDomState sampleDashOkServer).2 = 1 ∧
    countGets "/api/positions"
      (AppJS.closePosition ⟨"12", ⟨"btc"⟩⟩ sampleAppState sampleOkServer).2 = 1 :=
  ⟨((submitted_action_status_handling "okx" "BTCUSDT" sampleDomState sampleDashOkServer
      ⟨"success", "done"⟩ ⟨"12", ⟨"btc"⟩⟩ sampleAppState sampleOkServer ⟨"success", "ok"⟩
      ⟨[], ⟨"ps2"⟩⟩).1 rfl rfl).1,
   (submitted_action_status_handling "okx" "BTCUSDT" sampleDomState sampleDashOkServer
      ⟨"success", "done"⟩ ⟨"12", ⟨"btc"⟩⟩ sampleAppState sampleOkServer ⟨"success", "ok"⟩
      ⟨[], ⟨"ps2"⟩⟩).2.2.2.1 rfl⟩

lemma upsertPnl_keys (m : List (String × Rat)) (d : String) (p : Rat) :
    (DashJS.upsertPnl m d p).map Prod.fst =
      if d ∈ m.map Prod.fst then m.map Prod.fst else m.map Prod.fst ++ [d] := by
  induction m with
  | nil => simp [DashJS.upsertPnl]
  | cons kv rest ih =>
    obtain ⟨k, v⟩ := kv
    by_cases hk : k = d
    · subst hk
      simp [DashJS.upsertPnl]
    · have hne : ¬ d = k := fun h => hk h.symm
      by_cases hd : d ∈ rest.map Prod.fst
      · have hmem : d ∈ (k :: rest.map Prod.fst) := List.mem_cons_of_mem _ hd
        simp only [DashJS.upsertPnl, if_neg hk, List.map_cons, ih, if_pos hd]
        rw [if_pos hmem]
      · have hnmem : ¬ d ∈ (k :: rest.map Prod.fst) := by
          intro h
          rcases List.mem_cons.mp h with h | h
          · exact hne h
          · exact hd h
        simp only [DashJS.upsertPnl, if_neg hk, List.map_cons, ih, if_neg hd]
        rw [if_neg hnmem, List.cons_append]

lemma upsertPnl_lookupD (m : List (String × Rat)) (d : String) (p : Rat) (e : String) :
    DashJS.lookupD (DashJS.upsertPnl m d p) e =
      DashJS.lookupD m e + (if e = d then p else 0) := by
  induction m with
  | nil =>
    simp only [DashJS.upsertPnl, DashJS.lookupD, List.lookup]
    by_cases he : e = d
    · subst he; simp
    · rw [show (e == d) = false from beq_eq_false_iff_ne.mpr he]
      simp [he]
  | cons kv rest ih =>
    obtain ⟨k, v⟩ := kv
    by_cases hk : k = d
    · subst hk
      simp only [DashJS.upsertPnl, if_pos rfl, DashJS.lookupD, List.lookup]
      by_cases he : e = k
      · subst he; simp
      · rw [show (e == k) = false from beq_eq_false_iff_ne.mpr he]
        simp [he]
    · simp only [DashJS.upsertPnl, if_neg hk, DashJS.lookupD, List.lookup]
      by_cases he : e = k
      · subst he
        simp [hk]
      · rw [show (e == k) = false from beq_eq_false_iff_ne.mpr he]
        have hih := ih
        simp only [DashJS.lookupD] at hih
        exact hih

lemma lookup_of_mem_nodup (m : List (String × Rat))
    (hm : (m.map Prod.fst).Nodup) (q : String × Rat) (hq : q ∈ m) :
    m.lookup q.1 = some q.2 := by
  induction m with
  | nil => cases hq
  | cons kv rest ih =>
    obtain ⟨k, v⟩ := kv
    simp only [List.map_cons, List.nodup_cons] at hm
    rcases List.mem_cons.mp hq with h | h
    · subst h
      simp [List.lookup]
    · have hk : (q.1 == k) = false := by
        refine beq_eq_false_iff_ne.mpr ?_
        intro he
        exact hm.1 (he ▸ List.mem_map_of_mem Prod.fst h)
      simp only [List.lookup, hk]
      exact ih hm.2 h

lemma buildPnl_fold_spec (ts : List DashJS.Trade) (m : List (String × Rat))
    (hm : (m.map Prod.fst).Nodup) :
    (((ts.foldl (fun acc t => DashJS.upsertPnl acc (DashJS.dateOf t.time) t.profit) m).map
        Prod.fst).Nodup) ∧
    (∀ d, d ∈ (ts.foldl (fun acc t => DashJS.upsertPnl acc (DashJS.dateOf t.time) t.profit)
          m).map Prod.fst ↔
        d ∈ m.map Prod.fst ∨ d ∈ ts.map (fun t => DashJS.dateOf t.time)) ∧
    (∀ e, DashJS.lookupD
        (ts.foldl (fun acc t => DashJS.upsertPnl acc (DashJS.dateOf t.time) t.profit) m) e =
      DashJS.lookupD m e +
        ((ts.filter (fun t => DashJS.dateOf t.time == e)).map (fun t => t.profit)).sum) := by
  induction ts generalizing m with
  | nil =>
    refine ⟨hm, ?_, ?_⟩
    · intro d; simp
    · intro e; simp
  | cons t ts ih =>
    have hkeys := upsertPnl_keys m (DashJS.dateOf t.time) t.profit
    have hm2 : ((DashJS.upsertPnl m (DashJS.dateOf t.time) t.profit).map Prod.fst).Nodup := by
      rw [hkeys]
      by_cases hd : DashJS.dateOf t.time ∈ m.map Prod.fst
      · rwa [if_pos hd]
      · rw [if_neg hd]
        simp [List.nodup_append, hm, hd]
    obtain ⟨ihn, ihmem, ihval⟩ := ih (DashJS.upsertPnl m (DashJS.dateOf t.time) t.profit) hm2
    refine ⟨ihn, ?_, ?_⟩
    · intro d
      rw [List.foldl_cons, ihmem d, hkeys]
      by_cases hd : DashJS.dateOf t.time ∈ m.map Prod.fst
      · rw [if_pos hd]
        constructor
        · intro h
          rcases h with h | h
          · exact Or.inl h
          · exact Or.inr (by simp [h])
        · intro h
          rcases h with h | h
          · exact Or.inl h
          · rcases (by simpa using h : d = DashJS.dateOf t.time ∨
                d ∈ ts.map (fun t => DashJS.dateOf t.time)) with h | h
            · exact Or.inl (by rw [h]; exact hd)
            · exact Or.inr h
      · rw [if_neg hd]
        simp only [List.mem_append, List.mem_singleton, List.map_cons, List.mem_cons]
        tauto
    · intro e
      rw [List.foldl_cons, ihval e, upsertPnl_lookupD, List.filter_cons]
      by_cases he : DashJS.dateOf t.time = e
      · rw [if_pos (beq_iff_eq.mpr he), List.map_cons, List.sum_cons, if_pos he.symm]
        ring
      · have hne1 : ¬ ((DashJS.dateOf t.time == e) = true) :=
          fun hh => he (beq_iff_eq.mp hh)
        have hne2 : ¬ (e = DashJS.dateOf t.time) := fun hh => he hh.symm
        rw [if_neg hne1, if_neg hne2]
        ring

/-- C10: `updatePnlChart` groups the trades by the calendar-date prefix of
their `time` (the part before `'T'`); the chart labels are exactly the
distinct dates occurring in the trade list, and the value plotted at each
label is the sum of the profits of exactly the trades on that date. -/
theorem updatePnlChart_groups (trades : List DashJS.Trade) :
    (DashJS.updatePnlChart trades).labels.Nodup ∧
    (∀ d, d ∈ (DashJS.updatePnlChart trades).labels ↔
        d ∈ trades.map (fun t => DashJS.dateOf t.time)) ∧
    (DashJS.updatePnlChart trades).points.length =
      (DashJS.updatePnlChart trades).labels.length ∧
    ∀ i (h1 : i < (DashJS.updatePnlChart trades).labels.length)
        (h2 : i < (DashJS.updatePnlChart trades).points.length),
      (DashJS.updatePnlChart trades).points.get ⟨i, h2⟩ =
        ((trades.filter (fun t =>
            DashJS.dateOf t.time ==
              (DashJS.updatePnlChart trades).labels.get ⟨i, h1⟩)).map
          (fun t => t.profit)).sum := by
  obtain ⟨hn, hmem, hval⟩ := buildPnl_fold_spec trades [] (by simp)
  have hnd : ((DashJS.buildDailyPnl trades).map Prod.fst).Nodup := hn
  refine ⟨?_, ?_, ?_, ?_⟩
  · simpa [DashJS.updatePnlChart] using hnd
  · intro d
    have h := hmem d
    simpa [DashJS.updatePnlChart] using h
  · simp [DashJS.updatePnlChart]
  · intro i h1 h2
    have hi : i < (DashJS.buildDailyPnl trades).length := by
      simpa [DashJS.updatePnlChart] using h2
    have hq : (DashJS.buildDailyPnl trades).get ⟨i, hi⟩ ∈ DashJS.buildDailyPnl trades :=
      List.get_mem _ i hi
    have hlook := lookup_of_mem_nodup _ hnd _ hq
    have hvq := hval ((DashJS.buildDailyPnl trades).get ⟨i, hi⟩).1
    have hval2 : ((DashJS.buildDailyPnl trades).get ⟨i, hi⟩).2 =
        ((trades.filter (fun t => DashJS.dateOf t.time ==
            ((DashJS.buildDailyPnl trades).get ⟨i, hi⟩).1)).map (fun t => t.profit)).sum := by
      have h0 : DashJS.lookupD (DashJS.buildDailyPnl trades)
          ((DashJS.buildDailyPnl trades).get ⟨i, hi⟩).1 =
          ((DashJS.buildDailyPnl trades).get ⟨i, hi⟩).2 := by
        simp only [DashJS.lookupD]
        rw [hlook]
        rfl
      rw [← h0]
      simpa [DashJS.lookupD] using hvq
    have hpoint : (DashJS.updatePnlChart trades).points.get ⟨i, h2⟩ =
        ((DashJS.buildDailyPnl trades).get ⟨i, hi⟩).2 := by
      simp [DashJS.updatePnlChart, List.get_map]
    have hlabel : (DashJS.updatePnlChart trades).labels.get ⟨i, h1⟩ =
        ((DashJS.buildDailyPnl trades).get ⟨i, hi⟩).1 := by
      simp [DashJS.updatePnlChart, List.get_map]
    rw [hpoint, hlabel]
    exact hval2

theorem updatePnlChart_groups_witness :
    ("2024-01-01" ∈ (DashJS.updatePnlChart pnlTrades).labels) ∧
    (DashJS.updatePnlChart pnlTrades).points.get ⟨0, by with_unfolding_all decide⟩ =
      List.sum (List.map (fun t => t.profit) (List.filter (fun t =>
        DashJS.dateOf t.time ==
          (DashJS.updatePnlChart pnlTrades).labels.get ⟨0, by with_unfolding_all decide⟩)
        pnlTrades)) :=
  ⟨((updatePnlChart_groups pnlTrades).2.1 "2024-01-01").mpr (by with_unfolding_all decide),
   (updatePnlChart_groups pnlTrades).2.2.2 0 (by with_unfolding_all decide)
     (by with_unfolding_all decide)⟩
